import Mathlib

/-!
# Verification of the `pvo` workload generator

Shallow embedding of `src/workload_generator.py` (the concurrent workload
execution and aggregation engine) together with theorems settling the frozen
claims about it.

Modelling conventions:
* Wall-clock time is modelled by `ℚ`.  `time.time()` deltas are replaced by
  explicit per-attempt durations supplied by an oracle; `time.sleep(1)` adds
  exactly `1` to the accumulated elapsed time.
* The network is modelled by an oracle `Nat → AttemptOutcome` giving, for
  each attempt index, what the `try` block of `send_request` observes:
  either a decoded JSON payload (success path of `requests.get` +
  `raise_for_status` + `response.json()`), or a `requests.exceptions.RequestException`
  with a message (connection failure, timeout, non-2xx status via
  `raise_for_status`, malformed body — all subclasses of `RequestException`).
  Decoded JSON bodies are modelled opaquely as `String`.
* A Python function that can fall off the end of its body returns `None`;
  this is modelled by `Option`.  A Python function that can raise is modelled
  by `Except String`.
* The global `CONFIG` dict entries used by the control flow
  (`MAX_RETRIES`, `TIMEOUT`, `REQUEST_COUNTS`, `DEFAULT_N_VALUE`) are
  passed explicitly where the Python code reads the global.
-/

/-- The `CONFIG['MAX_RETRIES']` entry of the global configuration dict. -/
def CONFIG_MAX_RETRIES : Nat := 3

/-- The `CONFIG['TIMEOUT']` entry of the global configuration dict. -/
def CONFIG_TIMEOUT : ℚ := 30

/-- The `CONFIG['REQUEST_COUNTS']` entry of the global configuration dict. -/
def CONFIG_REQUEST_COUNTS : List Nat :=
  [1, 10, 50, 100, 200, 300, 400, 500, 600, 700, 800, 900, 1000]

/-- The `CONFIG['DEFAULT_N_VALUE']` entry of the global configuration dict. -/
def CONFIG_DEFAULT_N_VALUE : Nat := 100000

/-- What one iteration of the retry loop of `send_request` observes from the
network: either a successfully decoded response body, or a
`requests.exceptions.RequestException` carrying a message.  `duration` is the
wall-clock time this attempt consumed (the `requests.get` call and, on the
success path, response decoding). -/
inductive AttemptOutcome where
  | success (payload : String) (duration : ℚ)
  | failure (errMsg : String) (duration : ℚ)
  deriving Repr, DecidableEq

/-- `True` for the `failure` constructor. -/
def AttemptOutcome.isFailure : AttemptOutcome → Bool
  | .success _ _ => false
  | .failure _ _ => true

/-- Embedding of the `RequestResult` dataclass.  `response_data: Dict` with
value `None` on failure is modelled as `Option String`; `error: str = None`
as `Option String` with default `none`. -/
structure RequestResult where
  response_data : Option String
  execution_time : ℚ
  success : Bool
  error : Option String := none
  deriving Repr, DecidableEq

/-- Embedding of the `WorkloadResult` dataclass. -/
structure WorkloadResult where
  total_time : ℚ
  throughput : ℚ
  avg_calculation_time : ℚ
  request_count : Nat
  success_rate : ℚ
  latencies : List ℚ
  deriving Repr, DecidableEq

/-- Instrumented result of one `send_request` call: the returned value
(`none` models Python returning `None` by falling off the function body),
the number of loop iterations (attempts) executed, and the number of
`time.sleep(1)` calls performed. -/
structure ExecTrace where
  result : Option RequestResult
  attempts : Nat
  sleeps : Nat
  deriving Repr, DecidableEq

/-- The body of `send_request`'s `for attempt in range(CONFIG['MAX_RETRIES'])`
loop, iterating over the remaining attempt indices.

* `elapsed` is `time.time() - start_time` accumulated so far (attempt
  durations plus 1 per sleep).
* On a successful attempt the function returns a succeeded `RequestResult`
  whose `execution_time` is measured from `start_time`, i.e. the whole
  elapsed time, not the winning attempt's duration.
* On a failed attempt: if `attempt == CONFIG['MAX_RETRIES'] - 1` it returns a
  failed `RequestResult` carrying `str(e)`; otherwise it sleeps 1 second and
  continues with the next attempt.
* If the index list is exhausted (only possible when it was empty, i.e.
  `MAX_RETRIES = 0`), the function falls off the end and returns `None`. -/
def sendRequestGo (oracle : Nat → AttemptOutcome) (maxRetries : Nat) :
    ℚ → Nat → Nat → List Nat → ExecTrace
  | _elapsed, att, slp, [] => ⟨none, att, slp⟩
  | elapsed, att, slp, attempt :: rest =>
    match oracle attempt with
    | .success payload d =>
        ⟨some { response_data := some payload
                execution_time := elapsed + d
                success := true
                error := none }, att + 1, slp⟩
    | .failure msg d =>
        if attempt = maxRetries - 1 then
          ⟨some { response_data := none
                  execution_time := elapsed + d
                  success := false
                  error := some msg }, att + 1, slp⟩
        else
          sendRequestGo oracle maxRetries (elapsed + d + 1) (att + 1) (slp + 1) rest

/-- Instrumented embedding of `send_request(n, timeout)`.  `n` and `timeout`
are forwarded to `requests.get` and do not influence the control flow, which
depends only on the observed attempt outcomes; `maxRetries` is the value read
from the global `CONFIG['MAX_RETRIES']`. -/
def sendRequestTrace (_n : Nat) (_timeout : ℚ) (oracle : Nat → AttemptOutcome)
    (maxRetries : Nat) : ExecTrace :=
  sendRequestGo oracle maxRetries 0 0 0 (List.range maxRetries)

/-- Embedding of `send_request(n, timeout)`: the value it returns. -/
def send_request (n : Nat) (timeout : ℚ) (oracle : Nat → AttemptOutcome)
    (maxRetries : Nat) : Option RequestResult :=
  (sendRequestTrace n timeout oracle maxRetries).result

/-- `results = [future.result() for future in concurrent.futures.as_completed(futures)]`
followed by the attribute accesses `r.success` on each element: if any
`send_request` call returned `None`, the comprehension
`[r for r in results if r.success]` raises `AttributeError` (modelled by
`none`); otherwise all `RequestResult`s are collected. -/
def awaitAll : List (Option RequestResult) → Option (List RequestResult)
  | [] => some []
  | none :: _ => none
  | some r :: rest => (awaitAll rest).map (r :: ·)

/-- The aggregation block of `run_workload` (source lines 76–87): success
filtering, success rate, latency collection and the returned
`WorkloadResult`.  `statistics.mean(latencies) if latencies else 0` is the
sum/length mean for a nonempty list and the number `0` otherwise. -/
def aggregate (num_requests : Nat) (results : List RequestResult)
    (wallTime : ℚ) : WorkloadResult :=
  let successful_results := results.filter (·.success)
  let success_rate : ℚ := (successful_results.length : ℚ) / (num_requests : ℚ)
  let latencies := successful_results.map (·.execution_time)
  { total_time := wallTime
    throughput := if 0 < wallTime then (num_requests : ℚ) / wallTime else 0
    avg_calculation_time :=
      if latencies.isEmpty then 0 else latencies.sum / (latencies.length : ℚ)
    request_count := num_requests
    success_rate := success_rate
    latencies := latencies }

/-- Embedding of `run_workload(num_requests, n)`.

* `maxRetries` and `timeout` are the global `CONFIG` values read by
  `send_request`.
* `callOracle i` is the attempt-outcome oracle for the `i`-th submitted call;
  `wallTime` is the measured `end_time - start_time` of the batch.
* `ThreadPoolExecutor(max_workers=0)` raises
  `ValueError: max_workers must be greater than 0`, modelled by the first
  error branch.
* The `as_completed` completion order is modelled as submission order; none
  of the aggregation depends on the order. -/
def run_workload (maxRetries : Nat) (timeout : ℚ) (num_requests : Nat) (n : Nat)
    (callOracle : Nat → Nat → AttemptOutcome) (wallTime : ℚ) :
    Except String WorkloadResult :=
  if num_requests = 0 then
    .error "ValueError: max_workers must be greater than 0"
  else
    match awaitAll ((List.range num_requests).map
        (fun i => send_request n timeout (callOracle i) maxRetries)) with
    | none => .error "AttributeError: NoneType object has no attribute success"
    | some results => .ok (aggregate num_requests results wallTime)

/-- Embedding of the sweep loop in `main`, iterating over
`CONFIG['REQUEST_COUNTS']`.  `idx` is the position in the sweep, used to index
the per-level oracles and wall times.  Returns the collected summaries, the
total number of `send_request` calls submitted, and the first uncaught
exception, if any (a raise inside `run_workload` propagates out of `main`, so
later levels do not run).  A level whose pool creation fails (`count = 0`)
submits no calls. -/
def mainLoop (maxRetries : Nat) (timeout : ℚ) (n : Nat)
    (oracles : Nat → Nat → Nat → AttemptOutcome) (wallTimes : Nat → ℚ) :
    List Nat → Nat → List WorkloadResult × Nat × Option String
  | [], _ => ([], 0, none)
  | count :: rest, idx =>
    match run_workload maxRetries timeout count n (oracles idx) (wallTimes idx) with
    | .error e => ([], if count = 0 then 0 else count, some e)
    | .ok w =>
      let (ws, issued, err) := mainLoop maxRetries timeout n oracles wallTimes rest (idx + 1)
      (w :: ws, count + issued, err)

/-- Embedding of `main`'s measurement phase: run the sweep over the given
request counts (the Python code uses `CONFIG['REQUEST_COUNTS']`).  `main`
performs no validation of the configuration before the loop. -/
def mainRun (maxRetries : Nat) (timeout : ℚ) (n : Nat)
    (oracles : Nat → Nat → Nat → AttemptOutcome) (wallTimes : Nat → ℚ)
    (counts : List Nat) : List WorkloadResult × Nat × Option String :=
  mainLoop maxRetries timeout n oracles wallTimes counts 0

/-- The exclusivity invariant on a `RequestResult`: `payload` present and
`failure_reason` absent on success, the reverse on failure. -/
def RequestResult.exclusive (r : RequestResult) : Prop :=
  (r.success = true → r.response_data.isSome ∧ r.error = none) ∧
  (r.success = false → (∃ msg, r.error = some msg) ∧ r.response_data = none)

/-! ## Lemmas about the retry loop -/

theorem awaitAll_length {fs : List (Option RequestResult)} {rs : List RequestResult}
    (h : awaitAll fs = some rs) : rs.length = fs.length := by
  induction fs generalizing rs with
  | nil =>
    simp only [awaitAll, Option.some.injEq] at h
    simp [← h]
  | cons f rest ih =>
    cases f with
    | none => simp [awaitAll] at h
    | some r =>
      simp only [awaitAll, Option.map_eq_some'] at h
      obtain ⟨a, ha, hrs⟩ := h
      simp [← hrs, ih ha]

theorem awaitAll_mem {fs : List (Option RequestResult)} {rs : List RequestResult}
    (h : awaitAll fs = some rs) : ∀ r ∈ rs, some r ∈ fs := by
  induction fs generalizing rs with
  | nil =>
    simp only [awaitAll, Option.some.injEq] at h
    simp [← h]
  | cons f rest ih =>
    cases f with
    | none => simp [awaitAll] at h
    | some r =>
      simp only [awaitAll, Option.map_eq_some'] at h
      obtain ⟨a, ha, hrs⟩ := h
      intro x hx
      rw [← hrs] at hx
      rcases List.mem_cons.mp hx with hx | hx
      · simp [hx]
      · exact List.mem_cons_of_mem _ (ih ha x hx)

theorem awaitAll_isSome_of_forall {fs : List (Option RequestResult)}
    (h : ∀ f ∈ fs, f.isSome) : (awaitAll fs).isSome := by
  induction fs with
  | nil => simp [awaitAll]
  | cons f rest ih =>
    cases f with
    | none => simpa using h none (by simp)
    | some r =>
      have := ih (fun g hg => h g (List.mem_cons_of_mem _ hg))
      rw [Option.isSome_iff_exists] at this
      obtain ⟨a, ha⟩ := this
      simp [awaitAll, ha]

theorem sendRequestGo_isSome (oracle : Nat → AttemptOutcome) (mr : Nat) :
    ∀ (len a : Nat) (e : ℚ) (att slp : Nat), a + len = mr → 1 ≤ len →
      ((sendRequestGo oracle mr e att slp (List.range' a len)).result).isSome := by
  intro len
  induction len with
  | zero => omega
  | succ l ih =>
    intro a e att slp hsum _
    rw [List.range'_succ]
    cases horacle : oracle a with
    | success p d => simp [sendRequestGo, horacle]
    | failure m d =>
      by_cases ha : a = mr - 1
      · subst ha
        simp [sendRequestGo, horacle]
      · have hl : 1 ≤ l := by omega
        simp only [sendRequestGo, horacle, if_neg ha]
        exact ih (a + 1) _ _ _ (by omega) hl

theorem sendRequestGo_exclusive (oracle : Nat → AttemptOutcome) (mr : Nat) :
    ∀ (l : List Nat) (e : ℚ) (att slp : Nat) (r : RequestResult),
      (sendRequestGo oracle mr e att slp l).result = some r → r.exclusive := by
  intro l
  induction l with
  | nil => intro e att slp r h; simp [sendRequestGo] at h
  | cons attempt rest ih =>
    intro e att slp r h
    cases horacle : oracle attempt with
    | success p d =>
      simp only [sendRequestGo, horacle, Option.some.injEq] at h
      rw [← h]
      exact ⟨fun _ => by simp, fun hfalse => by simp at hfalse⟩
    | failure m d =>
      by_cases ha : attempt = mr - 1
      · simp only [sendRequestGo, horacle, if_pos ha, Option.some.injEq] at h
        rw [← h]
        exact ⟨fun htrue => by simp at htrue, fun _ => ⟨⟨m, rfl⟩, rfl⟩⟩
      · simp only [sendRequestGo, horacle, if_neg ha] at h
        exact ih _ _ _ _ h

theorem sendRequestGo_allfail (oracle : Nat → AttemptOutcome) (mr : Nat)
    (hfail : ∀ i, (oracle i).isFailure = true) :
    ∀ (l : List Nat) (e : ℚ) (att slp : Nat) (r : RequestResult),
      (sendRequestGo oracle mr e att slp l).result = some r → r.success = false := by
  intro l
  induction l with
  | nil => intro e att slp r h; simp [sendRequestGo] at h
  | cons attempt rest ih =>
    intro e att slp r h
    cases horacle : oracle attempt with
    | success p d =>
      have := hfail attempt
      rw [horacle] at this
      simp [AttemptOutcome.isFailure] at this
    | failure m d =>
      by_cases ha : attempt = mr - 1
      · simp only [sendRequestGo, horacle, if_pos ha, Option.some.injEq] at h
        rw [← h]
      · simp only [sendRequestGo, horacle, if_neg ha] at h
        exact ih _ _ _ _ h

theorem sendRequestGo_success (oracle : Nat → AttemptOutcome) (mr : Nat) (p : String)
    (d : Nat → ℚ) (msg : Nat → String) (j : Nat) (hj : j < mr)
    (hsucc : oracle j = .success p (d j))
    (hfail : ∀ i, i < j → oracle i = .failure (msg i) (d i)) :
    ∀ (len a : Nat) (e : ℚ) (att slp : Nat), a + len = mr → a ≤ j →
      sendRequestGo oracle mr e att slp (List.range' a len) =
        ⟨some { response_data := some p
                execution_time :=
                  e + ((List.range' a (j + 1 - a)).map d).sum + ((j - a : Nat) : ℚ)
                success := true
                error := none }, att + (j - a) + 1, slp + (j - a)⟩ := by
  intro len
  induction len with
  | zero => intro a e att slp hsum ha; omega
  | succ l ih =>
    intro a e att slp hsum ha
    rw [List.range'_succ]
    rcases Nat.eq_or_lt_of_le ha with heq | hlt
    · subst heq
      simp [sendRequestGo, hsucc, Nat.add_sub_cancel_left, Nat.sub_self, List.range'_one]
    · have hfa := hfail a hlt
      have hane : a ≠ mr - 1 := by omega
      simp only [sendRequestGo, hfa, if_neg hane]
      rw [ih (a + 1) (e + d a + 1) (att + 1) (slp + 1) (by omega) (by omega)]
      have h1 : j + 1 - a = (j + 1 - (a + 1)) + 1 := by omega
      rw [h1, List.range'_succ]
      simp only [List.map_cons, List.sum_cons, ExecTrace.mk.injEq, Option.some.injEq,
        RequestResult.mk.injEq]
      refine ⟨⟨trivial, ?_, trivial, trivial⟩, by omega, by omega⟩
      have h2 : (j - a : ℕ) = (j - (a + 1)) + 1 := by omega
      rw [h2]
      push_cast
      ring

theorem send_request_isSome (n : Nat) (t : ℚ) (oracle : Nat → AttemptOutcome)
    (mr : Nat) (hmr : 1 ≤ mr) : (send_request n t oracle mr).isSome := by
  rw [send_request, sendRequestTrace, List.range_eq_range']
  exact sendRequestGo_isSome oracle mr mr 0 0 0 0 (by omega) hmr

/-! ## Lemmas about the batch runner and the sweep -/

theorem run_workload_ok (mr : Nat) (t : ℚ) (num n : Nat)
    (co : Nat → Nat → AttemptOutcome) (wt : ℚ) (hmr : 1 ≤ mr) (hnum : 1 ≤ num) :
    ∃ results,
      awaitAll ((List.range num).map (fun i => send_request n t (co i) mr)) = some results ∧
      results.length = num ∧
      (∀ r ∈ results, ∃ i, i < num ∧ send_request n t (co i) mr = some r) ∧
      run_workload mr t num n co wt = .ok (aggregate num results wt) := by
  have hnum' : num ≠ 0 := by omega
  have hall : ∀ f ∈ (List.range num).map (fun i => send_request n t (co i) mr),
      f.isSome := by
    intro f hf
    obtain ⟨i, _, rfl⟩ := List.mem_map.mp hf
    exact send_request_isSome n t (co i) mr hmr
  obtain ⟨results, ha⟩ := Option.isSome_iff_exists.mp (awaitAll_isSome_of_forall hall)
  refine ⟨results, ha, ?_, ?_, ?_⟩
  · simpa using awaitAll_length ha
  · intro r hr
    obtain ⟨i, hi, heq⟩ := List.mem_map.mp (awaitAll_mem ha r hr)
    exact ⟨i, List.mem_range.mp hi, heq⟩
  · simp [run_workload, hnum', ha]

theorem run_workload_ok_inv (mr : Nat) (t : ℚ) (num n : Nat)
    (co : Nat → Nat → AttemptOutcome) (wt : ℚ) (w : WorkloadResult)
    (h : run_workload mr t num n co wt = .ok w) :
    num ≠ 0 ∧ ∃ results,
      awaitAll ((List.range num).map (fun i => send_request n t (co i) mr)) = some results ∧
      results.length = num ∧ w = aggregate num results wt := by
  by_cases hnum : num = 0
  · simp [run_workload, hnum] at h
  · cases ha : awaitAll ((List.range num).map (fun i => send_request n t (co i) mr)) with
    | none => simp [run_workload, hnum, ha] at h
    | some results =>
      simp only [run_workload, if_neg hnum, ha, Except.ok.injEq] at h
      exact ⟨hnum, results, rfl, by simpa using awaitAll_length ha, h.symm⟩

theorem run_workload_allfail (mr : Nat) (t : ℚ) (num n : Nat)
    (co : Nat → Nat → AttemptOutcome) (wt : ℚ) (hmr : 1 ≤ mr) (hnum : 1 ≤ num)
    (hfail : ∀ i j, (co i j).isFailure = true) :
    ∃ w, run_workload mr t num n co wt = .ok w ∧
      w.success_rate = 0 ∧ w.latencies = [] ∧ w.avg_calculation_time = 0 := by
  obtain ⟨results, ha, hlen, hmem, hok⟩ := run_workload_ok mr t num n co wt hmr hnum
  have hfilter : results.filter (·.success) = [] := by
    rw [List.filter_eq_nil_iff]
    intro r hr
    obtain ⟨i, hi, heq⟩ := hmem r hr
    have hrs : r.success = false := by
      apply sendRequestGo_allfail (co i) mr (hfail i) (List.range mr) 0 0 0 r
      simpa [send_request, sendRequestTrace] using heq
    simp [hrs]
  exact ⟨aggregate num results wt, hok, by simp [aggregate, hfilter],
    by simp [aggregate, hfilter], by simp [aggregate, hfilter]⟩

theorem mainLoop_valid (mr : Nat) (t : ℚ) (n : Nat)
    (oracles : Nat → Nat → Nat → AttemptOutcome) (wts : Nat → ℚ) (hmr : 1 ≤ mr) :
    ∀ (counts : List Nat) (idx : Nat), (∀ c ∈ counts, 1 ≤ c) →
      (mainLoop mr t n oracles wts counts idx).2.2 = none ∧
      (mainLoop mr t n oracles wts counts idx).1.map (·.request_count) = counts := by
  intro counts
  induction counts with
  | nil => intro idx _; exact ⟨rfl, rfl⟩
  | cons count rest ih =>
    intro idx hall
    have hc : 1 ≤ count := hall count (List.mem_cons_self _ _)
    obtain ⟨results, ha, hlen, hmem, hok⟩ :=
      run_workload_ok mr t count n (oracles idx) (wts idx) hmr hc
    have hrest := ih (idx + 1) (fun c hc' => hall c (List.mem_cons_of_mem _ hc'))
    rcases hM : mainLoop mr t n oracles wts rest (idx + 1) with ⟨ws, issued, err⟩
    rw [hM] at hrest
    simp only [mainLoop, hok, hM]
    exact ⟨hrest.1, by simp [aggregate, hrest.2]⟩

/-! ## Claim theorems -/

/-- C2: for every input parameter, timeout, and every possible sequence of
per-attempt outcomes (success, HTTP error status, connection failure,
timeout, malformed response body — all observed as `AttemptOutcome`s),
`send_request` under the configured retry count never raises: it always
returns a `RequestResult`, and every failure is captured as
`success = false` together with a reason string. -/
theorem send_request_always_returns_outcome (n : Nat) (t : ℚ)
    (oracle : Nat → AttemptOutcome) :
    ∃ r : RequestResult, send_request n t oracle CONFIG_MAX_RETRIES = some r ∧
      (r.success = false → ∃ msg, r.error = some msg) := by
  have hs := send_request_isSome n t oracle CONFIG_MAX_RETRIES (by norm_num [CONFIG_MAX_RETRIES])
  obtain ⟨r, hr⟩ := Option.isSome_iff_exists.mp hs
  refine ⟨r, hr, fun hf => ?_⟩
  have hex : r.exclusive := by
    apply sendRequestGo_exclusive oracle CONFIG_MAX_RETRIES
      (List.range CONFIG_MAX_RETRIES) 0 0 0 r
    simpa [send_request, sendRequestTrace] using hr
  exact (hex.2 hf).1

/-- Witness for C2: a concrete all-failing target still yields a returned
outcome with a reason. -/
theorem send_request_always_returns_outcome_witness :
    ∃ r : RequestResult,
      send_request 100000 30 (fun _ => .failure "connection refused" 1)
        CONFIG_MAX_RETRIES = some r ∧
      (r.success = false → ∃ msg, r.error = some msg) :=
  send_request_always_returns_outcome 100000 30 (fun _ => .failure "connection refused" 1)

/-- C8: every `RequestResult` returned by `send_request` satisfies the
exclusivity invariant: on success the payload is present and the failure
reason absent; on failure the reverse. -/
theorem outcome_exclusivity (n : Nat) (t : ℚ) (oracle : Nat → AttemptOutcome)
    (mr : Nat) (r : RequestResult) (h : send_request n t oracle mr = some r) :
    r.exclusive := by
  apply sendRequestGo_exclusive oracle mr (List.range mr) 0 0 0 r
  simpa [send_request, sendRequestTrace] using h

/-- Witness for C8 at a concrete successful call. -/
theorem outcome_exclusivity_witness :
    RequestResult.exclusive
      { response_data := some "body", execution_time := 0 + 1, success := true,
        error := none } :=
  outcome_exclusivity 100000 30 (fun _ => .success "body" 1) 3
    { response_data := some "body", execution_time := 0 + 1, success := true,
      error := none } rfl

/-- C9: `send_request` is total only when at least one attempt is allowed:
with `CONFIG['MAX_RETRIES'] = 0` the loop body never runs (zero attempts) and
the function falls off the end, returning `None` instead of a
`RequestResult`; with `max_retries ≥ 1` an outcome is always returned. -/
theorem send_request_totality_requires_retries :
    (∀ (n : Nat) (t : ℚ) (oracle : Nat → AttemptOutcome),
        send_request n t oracle 0 = none ∧
        (sendRequestTrace n t oracle 0).attempts = 0) ∧
    (∀ (n : Nat) (t : ℚ) (oracle : Nat → AttemptOutcome) (mr : Nat), 1 ≤ mr →
        (send_request n t oracle mr).isSome = true) :=
  ⟨fun _ _ _ => ⟨rfl, rfl⟩, fun n t oracle mr hmr => send_request_isSome n t oracle mr hmr⟩

/-- Witness for C9: at retry budget 0 the call returns `None`; at budget 1 it
returns an outcome. -/
theorem send_request_totality_requires_retries_witness :
    (send_request 100000 30 (fun _ => .success "body" 1) 0 = none ∧
      (sendRequestTrace 100000 30 (fun _ => .success "body" 1) 0).attempts = 0) ∧
    (send_request 100000 30 (fun _ => .success "body" 1) 1).isSome = true :=
  ⟨(send_request_totality_requires_retries.1 100000 30 (fun _ => .success "body" 1)),
    send_request_totality_requires_retries.2 100000 30 (fun _ => .success "body" 1) 1
      (by norm_num)⟩

/-- C3: against a target whose every attempt fails, `send_request` with the
configured `max_retries = 3` makes exactly 3 attempts, sleeps 1 time unit
between consecutive attempts (2 sleeps), returns a failed outcome carrying
the last attempt's error description, and its elapsed time equals the three
attempt durations plus the 2 inter-retry delays, hence is at least 2. -/
theorem retry_exhaustion_three (n : Nat) (t : ℚ) (msg : Nat → String) (d : Nat → ℚ)
    (hd : ∀ i, 0 ≤ d i) :
    (sendRequestTrace n t (fun i => .failure (msg i) (d i)) CONFIG_MAX_RETRIES).attempts = 3 ∧
    (sendRequestTrace n t (fun i => .failure (msg i) (d i)) CONFIG_MAX_RETRIES).sleeps = 2 ∧
    send_request n t (fun i => .failure (msg i) (d i)) CONFIG_MAX_RETRIES =
      some { response_data := none
             execution_time := d 0 + d 1 + d 2 + 2
             success := false
             error := some (msg 2) } ∧
    (2 : ℚ) ≤ d 0 + d 1 + d 2 + 2 := by
  refine ⟨rfl, rfl, ?_, by linarith [hd 0, hd 1, hd 2]⟩
  have h : send_request n t (fun i => .failure (msg i) (d i)) CONFIG_MAX_RETRIES =
      some { response_data := none
             execution_time := 0 + d 0 + 1 + d 1 + 1 + d 2
             success := false
             error := some (msg 2) } := rfl
  rw [h]
  simp only [Option.some.injEq, RequestResult.mk.injEq, true_and, and_true]
  ring

/-- Witness for C3 with zero-duration failing attempts. -/
theorem retry_exhaustion_three_witness :
    (sendRequestTrace 100000 30 (fun _ => .failure "connection refused" 0)
      CONFIG_MAX_RETRIES).attempts = 3 ∧
    (sendRequestTrace 100000 30 (fun _ => .failure "connection refused" 0)
      CONFIG_MAX_RETRIES).sleeps = 2 ∧
    send_request 100000 30 (fun _ => .failure "connection refused" 0)
      CONFIG_MAX_RETRIES =
      some { response_data := none
             execution_time := 0 + 0 + 0 + 2
             success := false
             error := some "connection refused" } ∧
    (2 : ℚ) ≤ 0 + 0 + 0 + 2 :=
  retry_exhaustion_three 100000 30 (fun _ => "connection refused") (fun _ => 0)
    (fun _ => le_refl 0)

/-- C4: a call that succeeds on attempt `k` (1 ≤ k ≤ max_retries) returns an
outcome whose `execution_time` is the sum of all `k` attempt durations plus
the `k - 1` inter-retry delays — the span from before the first attempt to
the end of the winning attempt, not the winning attempt's duration alone. -/
theorem elapsed_spans_all_attempts (mr k n : Nat) (t : ℚ)
    (oracle : Nat → AttemptOutcome) (p : String) (d : Nat → ℚ) (msg : Nat → String)
    (hk1 : 1 ≤ k) (hk2 : k ≤ mr)
    (hfail : ∀ i, i < k - 1 → oracle i = .failure (msg i) (d i))
    (hsucc : oracle (k - 1) = .success p (d (k - 1))) :
    send_request n t oracle mr =
      some { response_data := some p
             execution_time := ((List.range k).map d).sum + ((k - 1 : ℕ) : ℚ)
             success := true
             error := none } := by
  have h := sendRequestGo_success oracle mr p d msg (k - 1) (by omega) hsucc hfail
    mr 0 0 0 0 (by omega) (by omega)
  rw [send_request, sendRequestTrace, List.range_eq_range', h]
  dsimp only
  simp only [Nat.sub_zero, zero_add]
  rw [show k - 1 + 1 = k by omega, ← List.range_eq_range']

/-- Witness for C4: failure (5s) then success (7s) with `max_retries = 3`
gives elapsed `5 + 7 + 1`. -/
theorem elapsed_spans_all_attempts_witness :
    send_request 100000 30
        (fun i => if i = 0 then AttemptOutcome.failure "timeout" 5
          else AttemptOutcome.success "body" 7) 3 =
      some { response_data := some "body"
             execution_time :=
               ((List.range 2).map (fun i => if i = 0 then (5 : ℚ) else 7)).sum +
                 ((2 - 1 : ℕ) : ℚ)
             success := true
             error := none } :=
  elapsed_spans_all_attempts 3 2 100000 30
    (fun i => if i = 0 then AttemptOutcome.failure "timeout" 5
      else AttemptOutcome.success "body" 7)
    "body" (fun i => if i = 0 then (5 : ℚ) else 7) (fun _ => "timeout")
    (by norm_num) (by norm_num)
    (fun i hi => by
      have hi0 : i = 0 := by omega
      subst hi0
      rfl)
    rfl

/-- C6: every `WorkloadResult` produced by `run_workload` satisfies
`0 ≤ success_rate ≤ 1` and `len(latencies) = round(success_rate *
request_count)`, and its `latencies` are exactly the `execution_time` values
of the successful outcomes. -/
theorem summary_invariants (mr : Nat) (t : ℚ) (num n : Nat)
    (co : Nat → Nat → AttemptOutcome) (wt : ℚ) (w : WorkloadResult)
    (h : run_workload mr t num n co wt = .ok w) :
    0 ≤ w.success_rate ∧ w.success_rate ≤ 1 ∧
    (w.latencies.length : ℤ) = round (w.success_rate * (w.request_count : ℚ)) ∧
    ∃ results,
      awaitAll ((List.range num).map (fun i => send_request n t (co i) mr)) =
        some results ∧
      w.latencies = (results.filter (·.success)).map (·.execution_time) := by
  obtain ⟨hnum, results, ha, hlen, hw⟩ := run_workload_ok_inv mr t num n co wt w h
  subst hw
  have hsl : (results.filter (·.success)).length ≤ num :=
    hlen ▸ List.length_filter_le _ _
  have hnum0 : (0 : ℚ) < (num : ℚ) := by
    exact_mod_cast Nat.pos_of_ne_zero hnum
  refine ⟨?_, ?_, ?_, results, ha, ?_⟩
  · simp only [aggregate]
    positivity
  · simp only [aggregate]
    rw [div_le_one hnum0]
    exact_mod_cast hsl
  · simp only [aggregate, List.length_map]
    rw [div_mul_cancel₀ _ (ne_of_gt hnum0), round_natCast]
  · simp only [aggregate]

/-- Witness for C6 at a concrete single all-success level. -/
theorem summary_invariants_witness :
    0 ≤ ({ total_time := 2, throughput := 1/2, avg_calculation_time := 1,
           request_count := 1, success_rate := 1,
           latencies := [1] } : WorkloadResult).success_rate ∧
    ({ total_time := 2, throughput := 1/2, avg_calculation_time := 1,
       request_count := 1, success_rate := 1,
       latencies := [1] } : WorkloadResult).success_rate ≤ 1 ∧
    ((({ total_time := 2, throughput := 1/2, avg_calculation_time := 1,
         request_count := 1, success_rate := 1,
         latencies := [1] } : WorkloadResult).latencies.length : ℤ) =
      round (({ total_time := 2, throughput := 1/2, avg_calculation_time := 1,
                request_count := 1, success_rate := 1,
                latencies := [1] } : WorkloadResult).success_rate *
        ((({ total_time := 2, throughput := 1/2, avg_calculation_time := 1,
             request_count := 1, success_rate := 1,
             latencies := [1] } : WorkloadResult).request_count : ℕ) : ℚ))) ∧
    ∃ results,
      awaitAll ((List.range 1).map
        (fun i => send_request 100000 30
          ((fun _ _ => AttemptOutcome.success "body" 1) i) 3)) = some results ∧
      ({ total_time := 2, throughput := 1/2, avg_calculation_time := 1,
         request_count := 1, success_rate := 1,
         latencies := [1] } : WorkloadResult).latencies =
        (results.filter (·.success)).map (·.execution_time) :=
  summary_invariants 3 30 1 100000 (fun _ _ => .success "body" 1) 2
    { total_time := 2, throughput := 1/2, avg_calculation_time := 1,
      request_count := 1, success_rate := 1, latencies := [1] }
    (by norm_num [run_workload, send_request, sendRequestTrace, sendRequestGo,
      awaitAll, aggregate, List.range_succ])

/-- C5: for every concurrency level `C ≥ 1` and any mix of per-call outcomes
`run_workload` under the configured retry count never raises; when all calls
fail it returns a summary with `success_rate = 0` and `latencies = []`; and a
sweep over levels that are all ≥ 1 completes with no exception and exactly
one summary per configured level, in order. -/
theorem run_level_and_sweep_never_raise :
    (∀ (t : ℚ) (n num : Nat) (co : Nat → Nat → AttemptOutcome) (wt : ℚ), 1 ≤ num →
      ∃ w, run_workload CONFIG_MAX_RETRIES t num n co wt = .ok w ∧
        ((∀ i j, (co i j).isFailure = true) →
          w.success_rate = 0 ∧ w.latencies = [])) ∧
    (∀ (t : ℚ) (n : Nat) (counts : List Nat)
        (oracles : Nat → Nat → Nat → AttemptOutcome) (wts : Nat → ℚ),
      (∀ c ∈ counts, 1 ≤ c) →
      (mainRun CONFIG_MAX_RETRIES t n oracles wts counts).2.2 = none ∧
      (mainRun CONFIG_MAX_RETRIES t n oracles wts counts).1.length = counts.length ∧
      (mainRun CONFIG_MAX_RETRIES t n oracles wts counts).1.map (·.request_count) =
        counts) := by
  constructor
  · intro t n num co wt hnum
    by_cases hfail : ∀ i j, (co i j).isFailure = true
    · obtain ⟨w, hok, h0, hlat, _⟩ := run_workload_allfail CONFIG_MAX_RETRIES t num n
        co wt (by norm_num [CONFIG_MAX_RETRIES]) hnum hfail
      exact ⟨w, hok, fun _ => ⟨h0, hlat⟩⟩
    · obtain ⟨results, _, _, _, hok⟩ := run_workload_ok CONFIG_MAX_RETRIES t num n
        co wt (by norm_num [CONFIG_MAX_RETRIES]) hnum
      exact ⟨_, hok, fun hf => absurd hf hfail⟩
  · intro t n counts oracles wts hc
    have h := mainLoop_valid CONFIG_MAX_RETRIES t n oracles wts
      (by norm_num [CONFIG_MAX_RETRIES]) counts 0 hc
    exact ⟨h.1, by simpa using congrArg List.length h.2, h.2⟩

/-- Witness for C5: an all-failing target at level 2 and a `[1, 2]` sweep. -/
theorem run_level_and_sweep_never_raise_witness :
    (∃ w, run_workload CONFIG_MAX_RETRIES 30 2 100000
        (fun _ _ => .failure "connection refused" 0) 1 = .ok w ∧
      ((∀ (_i _j : Nat),
          (AttemptOutcome.failure "connection refused" (0 : ℚ)).isFailure = true) →
        w.success_rate = 0 ∧ w.latencies = [])) ∧
    ((mainRun CONFIG_MAX_RETRIES 30 100000
        (fun _ _ _ => .failure "connection refused" 0) (fun _ => 1) [1, 2]).2.2 =
      none ∧
     (mainRun CONFIG_MAX_RETRIES 30 100000
        (fun _ _ _ => .failure "connection refused" 0) (fun _ => 1) [1, 2]).1.length =
      ([1, 2] : List Nat).length ∧
     (mainRun CONFIG_MAX_RETRIES 30 100000
        (fun _ _ _ => .failure "connection refused" 0) (fun _ => 1) [1, 2]).1.map
        (·.request_count) = [1, 2]) :=
  ⟨run_level_and_sweep_never_raise.1 30 100000 2
      (fun _ _ => .failure "connection refused" 0) 1 (by norm_num),
   run_level_and_sweep_never_raise.2 30 100000 [1, 2]
      (fun _ _ _ => .failure "connection refused" 0) (fun _ => 1) (by decide)⟩

/-- C10: `run_workload` requires a positive request count: at
`num_requests = 0` the worker pool constructor raises `ValueError` before any
aggregation (so no summary is produced), while for every `num_requests ≥ 1`
a summary is returned. -/
theorem run_workload_requires_positive_concurrency :
    (∀ (mr : Nat) (t : ℚ) (n : Nat) (co : Nat → Nat → AttemptOutcome) (wt : ℚ),
      run_workload mr t 0 n co wt =
        .error "ValueError: max_workers must be greater than 0") ∧
    (∀ (t : ℚ) (num n : Nat) (co : Nat → Nat → AttemptOutcome) (wt : ℚ), 1 ≤ num →
      ∃ w, run_workload CONFIG_MAX_RETRIES t num n co wt = .ok w ∧
        w.request_count = num) := by
  constructor
  · intro mr t n co wt
    rfl
  · intro t num n co wt hnum
    obtain ⟨results, _, _, _, hok⟩ := run_workload_ok CONFIG_MAX_RETRIES t num n
      co wt (by norm_num [CONFIG_MAX_RETRIES]) hnum
    exact ⟨_, hok, rfl⟩

/-- Witness for C10: zero workers raise; one worker yields a summary. -/
theorem run_workload_requires_positive_concurrency_witness :
    run_workload 3 30 0 100000 (fun _ _ => .success "body" 1) 1 =
      .error "ValueError: max_workers must be greater than 0" ∧
    ∃ w, run_workload CONFIG_MAX_RETRIES 30 1 100000
        (fun _ _ => .success "body" 1) 1 = .ok w ∧ w.request_count = 1 :=
  ⟨run_workload_requires_positive_concurrency.1 3 30 100000
      (fun _ _ => .success "body" 1) 1,
   run_workload_requires_positive_concurrency.2 30 1 100000
      (fun _ _ => .success "body" 1) 1 (le_refl 1)⟩

/-- C1 counterexample: at a level where zero calls succeed, the summary's
mean-latency field (`avg_calculation_time`) is reported as the number `0` —
not as an optional/absent "no data" marker. -/
theorem mean_latency_reported_as_zero_cex :
    run_workload 3 30 1 100000 (fun _ _ => .failure "connection refused" 0) 1 =
      .ok { total_time := 1, throughput := 1, avg_calculation_time := 0,
            request_count := 1, success_rate := 0, latencies := [] } := by
  norm_num [run_workload, send_request, sendRequestTrace, sendRequestGo, awaitAll,
    aggregate, List.range_succ]

/-- C1 (amended): for every level at which zero calls succeed, the summary
reports `avg_calculation_time` as the plain number `0` (with empty
`latencies`), silently coercing "no data" to zero. -/
theorem mean_latency_silent_zero (mr : Nat) (t : ℚ) (num n : Nat)
    (co : Nat → Nat → AttemptOutcome) (wt : ℚ) (w : WorkloadResult)
    (h : run_workload mr t num n co wt = .ok w) (h0 : w.success_rate = 0) :
    w.avg_calculation_time = 0 ∧ w.latencies = [] := by
  obtain ⟨hnum, results, ha, hlen, hw⟩ := run_workload_ok_inv mr t num n co wt w h
  subst hw
  simp only [aggregate] at h0 ⊢
  rw [div_eq_zero_iff] at h0
  have hnumQ : ((num : ℕ) : ℚ) ≠ 0 := Nat.cast_ne_zero.mpr hnum
  have hlen0 : (results.filter (·.success)).length = 0 := by
    rcases h0 with h0 | h0
    · exact_mod_cast h0
    · exact absurd h0 hnumQ
  have hnil : results.filter (·.success) = [] := List.length_eq_zero.mp hlen0
  simp [hnil]

/-- Witness for the amended C1 at a concrete all-failing two-call level. -/
theorem mean_latency_silent_zero_witness :
    ({ total_time := 1, throughput := 2, avg_calculation_time := 0,
       request_count := 2, success_rate := 0,
       latencies := [] } : WorkloadResult).avg_calculation_time = 0 ∧
    ({ total_time := 1, throughput := 2, avg_calculation_time := 0,
       request_count := 2, success_rate := 0,
       latencies := [] } : WorkloadResult).latencies = [] :=
  mean_latency_silent_zero 3 30 2 100000 (fun _ _ => .failure "refused" 0) 1
    { total_time := 1, throughput := 2, avg_calculation_time := 0,
      request_count := 2, success_rate := 0, latencies := [] }
    (by norm_num [run_workload, send_request, sendRequestTrace, sendRequestGo,
      awaitAll, aggregate, List.range_succ])
    (by norm_num)

/-- C7 counterexample: with the invalid configuration
`REQUEST_COUNTS = [1, 0]` the sweep does raise, but not fail-fast at startup:
the level-1 request has already been issued when the worker-pool creation for
the level-0 entry fails.  `main` performs no configuration validation before
issuing requests. -/
theorem main_raises_midsweep_cex :
    ((mainRun 3 30 100000 (fun _ _ _ => .success "body" 1) (fun _ => 1)
        [1, 0]).2.2 = some "ValueError: max_workers must be greater than 0") ∧
    (mainRun 3 30 100000 (fun _ _ _ => .success "body" 1) (fun _ => 1)
        [1, 0]).2.1 = 1 := by
  norm_num [mainRun, mainLoop, run_workload, send_request, sendRequestTrace,
    sendRequestGo, awaitAll, aggregate, List.range_succ]

/-- C7 (amended): `main` performs no startup validation; for every
configuration whose concurrency levels are all ≥ 1 it never raises under the
configured retry count, while an invalid level raises only when reached
during the sweep. -/
theorem main_valid_config_never_raises (t : ℚ) (n : Nat)
    (oracles : Nat → Nat → Nat → AttemptOutcome) (wts : Nat → ℚ)
    (counts : List Nat) (hc : ∀ c ∈ counts, 1 ≤ c) :
    (mainRun CONFIG_MAX_RETRIES t n oracles wts counts).2.2 = none :=
  (mainLoop_valid CONFIG_MAX_RETRIES t n oracles wts
    (by norm_num [CONFIG_MAX_RETRIES]) counts 0 hc).1

/-- Witness for the amended C7 on the sweep `[1, 2]`. -/
theorem main_valid_config_never_raises_witness :
    (mainRun CONFIG_MAX_RETRIES 30 100000 (fun _ _ _ => .success "body" 1)
      (fun _ => 1) [1, 2]).2.2 = none :=
  main_valid_config_never_raises 30 100000 (fun _ _ _ => .success "body" 1)
    (fun _ => 1) [1, 2] (by decide)
